import Mathlib

/-! CodeLite: plugin manager interface and wxCrafter widget base classes

A shallow embedding of `Interfaces/imanager.h` and `LiteEditor/wxcrafter.h`.

* A C++ member function is a function from the object before the call (and
  the arguments) to the object after the call and the result.
* A reference parameter that the function writes (`wxCommandEvent& event`)
  is returned next to the object.
* A pointer is the address it holds (`Ptr`, `0` for `NULL`).
-/

namespace CodeLite

/-! ## Toolkit types used by the headers -/

/-- The toolkit's string class, a sequence of characters. -/
abbrev wxString := String

/-- The toolkit's empty string constant. -/
def wxEmptyString : wxString := ""

/-- A raw pointer: the address it holds, `0` for `NULL`. -/
abbrev Ptr := Nat

/-- Modelled from the spec: the toolkit's bitmap class `wxBitmap`, which
wx/bitmap.h declares and src/ does not hold: a handle on shared pixel data,
`none` when the object holds no data. -/
structure wxBitmap where
  m_refData : Option Nat
  deriving DecidableEq, Repr

/-- Modelled from the spec: the value of the toolkit's global null bitmap
`wxNullBitmap`, a bitmap without data. -/
def wxNullBitmap : wxBitmap := ⟨none⟩

/-! ## `std::map<wxString, wxBitmap>` -/

/-- Modelled from the spec: the standard library's `std::map<wxString, wxBitmap>`,
as the list of its nodes, each a key with its mapped value. -/
abbrev BitmapMap := List (wxString × wxBitmap)

/-- Modelled from the spec: the member `std::map::count` of the standard
library, the number of nodes whose key is `k`, which is `0` or `1`. -/
def BitmapMap.count (m : BitmapMap) (k : wxString) : Nat :=
  if m.any (fun node => node.1 == k) then 1 else 0

/-- Modelled from the spec: the member `std::map::find` of the standard
library, the node whose key is `k`, `none` for the past-the-end iterator. -/
def BitmapMap.find (m : BitmapMap) (k : wxString) : Option (wxString × wxBitmap) :=
  List.find? (fun node => node.1 == k) m

/-- A `const wxBitmap&`: the object referred to, which in this header is
either the toolkit's global `wxNullBitmap` or the mapped value (`->second`) of
a node of `m_bitmaps`. -/
inductive wxBitmapRef where
  | wxNullBitmap : wxBitmapRef
  | second (node : wxString × wxBitmap) : wxBitmapRef
  deriving DecidableEq, Repr

/-- The bitmap a reference reads. -/
def wxBitmapRef.get : wxBitmapRef → wxBitmap
  | .wxNullBitmap => CodeLite.wxNullBitmap
  | .second node => node.2

/-! ## `NewProjImgList` (wxcrafter.h) -/

/-- The members that `NewProjImgList` declares (wxcrafter.h, lines 119-124). -/
structure NewProjImgList where
  /-- Maintain a map of all bitmaps represented by their name. -/
  m_bitmaps : BitmapMap
  /-- The requested image resolution. -/
  m_resolution : wxString
  m_imagesWidth : Int
  m_imagesHeight : Int
  deriving DecidableEq, Repr

/-- The method `NewProjImgList::Bitmap` (wxcrafter.h, lines 131-135). The
result is `none` when the body dereferences the past-the-end iterator. -/
def NewProjImgList.Bitmap (self : NewProjImgList) (name : wxString) :
    Option (NewProjImgList × wxBitmapRef) :=
  if self.m_bitmaps.count (name ++ self.m_resolution) = 0 then
    some (self, wxBitmapRef.wxNullBitmap)
  else
    match self.m_bitmaps.find (name ++ self.m_resolution) with
    | some node => some (self, wxBitmapRef.second node)
    | none => none

/-- The method `NewProjImgList::SetBitmapResolution` (wxcrafter.h, lines
137-139). The argument is `none` when the call leaves it out, and the
parameter then takes its default, `wxEmptyString`. -/
def NewProjImgList.SetBitmapResolution (self : NewProjImgList) (res : Option wxString) :
    NewProjImgList :=
  { self with m_resolution := res.getD wxEmptyString }

/-- The lookup of the key `k` in the words of the specification: the bitmap
stored under `k` if present, the null bitmap otherwise. -/
def BitmapMap.lookupRef (m : BitmapMap) (k : wxString) : wxBitmapRef :=
  match m.find k with
  | some node => wxBitmapRef.second node
  | none => wxBitmapRef.wxNullBitmap

/-! ## Events -/

/-- Modelled from the spec: the toolkit's event class `wxEvent`, which wx/event.h
declares and src/ does not hold. An event carries its type, the identifier of
the window it comes from and the flag `m_skipped`, which tells the toolkit
that the handler did not consume the event ("skip/ignore"). -/
structure wxEvent where
  m_eventType : Int
  m_id : Int
  m_skipped : Bool
  deriving DecidableEq, Repr

/-- Modelled from the spec: the member `wxEvent::Skip(bool skip = true)` of the
toolkit, which stores `skip` in the flag `m_skipped`. The argument is `none`
when the call leaves it out, as in `event.Skip()`. -/
def wxEvent.Skip (self : wxEvent) (skip : Option Bool) : wxEvent :=
  { self with m_skipped := skip.getD true }

/-- Modelled from the spec: the member `wxEvent::GetSkipped` of the toolkit. -/
def wxEvent.GetSkipped (self : wxEvent) : Bool :=
  self.m_skipped

/-- The event classes the handlers take. Each derives from `wxEvent`, and
`Skip` is a member of the base class. -/
abbrev wxCommandEvent := wxEvent

/-- An event of the class `wxUpdateUIEvent`, as a `wxEvent`. -/
abbrev wxUpdateUIEvent := wxEvent

/-- An event of the class `wxSizeEvent`, as a `wxEvent`. -/
abbrev wxSizeEvent := wxEvent

/-- An event of the class `wxTreeEvent`, as a `wxEvent`. -/
abbrev wxTreeEvent := wxEvent

/-- An event of the class `wxCloseEvent`, as a `wxEvent`. -/
abbrev wxCloseEvent := wxEvent

/-- An event of the class `wxWizardEvent`, as a `wxEvent`. -/
abbrev wxWizardEvent := wxEvent

/-- An event of the class `wxDataViewEvent`, as a `wxEvent`. -/
abbrev wxDataViewEvent := wxEvent

/-! ## Widget base classes (wxcrafter.h) -/

/-- The members that `NavBarControlBaseClass` declares (wxcrafter.h, lines 70-74). -/
structure NavBarControlBaseClass where
  m_splitter : Ptr
  m_splitterPage39 : Ptr
  m_scope : Ptr
  m_splitterPage41 : Ptr
  m_func : Ptr
  deriving DecidableEq, Repr

/-- The handler `NavBarControlBaseClass::OnScope` (wxcrafter.h, line 77). -/
def NavBarControlBaseClass.OnScope (self : NavBarControlBaseClass) (event : wxCommandEvent) :
    NavBarControlBaseClass × wxCommandEvent :=
  (self, wxEvent.Skip event none)

/-- The handler `NavBarControlBaseClass::OnFunction` (wxcrafter.h, line 78). -/
def NavBarControlBaseClass.OnFunction (self : NavBarControlBaseClass) (event : wxCommandEvent) :
    NavBarControlBaseClass × wxCommandEvent :=
  (self, wxEvent.Skip event none)

/-- The member that `BuildTabTopPanelBaseClass` declares (wxcrafter.h, line 94). -/
structure BuildTabTopPanelBaseClass where
  m_auibar48 : Ptr
  deriving DecidableEq, Repr

/-- The handler `BuildTabTopPanelBaseClass::OnToolPinCommandToolClicked` (wxcrafter.h, line 97). -/
def BuildTabTopPanelBaseClass.OnToolPinCommandToolClicked (self : BuildTabTopPanelBaseClass) (event : wxCommandEvent) :
    BuildTabTopPanelBaseClass × wxCommandEvent :=
  (self, wxEvent.Skip event none)

/-- The handler `BuildTabTopPanelBaseClass::OnAutoScroll` (wxcrafter.h, line 98). -/
def BuildTabTopPanelBaseClass.OnAutoScroll (self : BuildTabTopPanelBaseClass) (event : wxCommandEvent) :
    BuildTabTopPanelBaseClass × wxCommandEvent :=
  (self, wxEvent.Skip event none)

/-- The handler `BuildTabTopPanelBaseClass::OnAutoScrollUI` (wxcrafter.h, line 99). -/
def BuildTabTopPanelBaseClass.OnAutoScrollUI (self : BuildTabTopPanelBaseClass) (event : wxUpdateUIEvent) :
    BuildTabTopPanelBaseClass × wxUpdateUIEvent :=
  (self, wxEvent.Skip event none)

/-- The handler `BuildTabTopPanelBaseClass::OnClearBuildOutput` (wxcrafter.h, line 100). -/
def BuildTabTopPanelBaseClass.OnClearBuildOutput (self : BuildTabTopPanelBaseClass) (event : wxCommandEvent) :
    BuildTabTopPanelBaseClass × wxCommandEvent :=
  (self, wxEvent.Skip event none)

/-- The handler `BuildTabTopPanelBaseClass::OnClearBuildOutputUI` (wxcrafter.h, line 101). -/
def BuildTabTopPanelBaseClass.OnClearBuildOutputUI (self : BuildTabTopPanelBaseClass) (event : wxUpdateUIEvent) :
    BuildTabTopPanelBaseClass × wxUpdateUIEvent :=
  (self, wxEvent.Skip event none)

/-- The handler `BuildTabTopPanelBaseClass::OnSaveBuildOutput` (wxcrafter.h, line 102). -/
def BuildTabTopPanelBaseClass.OnSaveBuildOutput (self : BuildTabTopPanelBaseClass) (event : wxCommandEvent) :
    BuildTabTopPanelBaseClass × wxCommandEvent :=
  (self, wxEvent.Skip event none)

/-- The handler `BuildTabTopPanelBaseClass::OnSaveBuildOutputUI` (wxcrafter.h, line 103). -/
def BuildTabTopPanelBaseClass.OnSaveBuildOutputUI (self : BuildTabTopPanelBaseClass) (event : wxUpdateUIEvent) :
    BuildTabTopPanelBaseClass × wxUpdateUIEvent :=
  (self, wxEvent.Skip event none)

/-- The handler `BuildTabTopPanelBaseClass::OnCopyBuildOutput` (wxcrafter.h, line 104). -/
def BuildTabTopPanelBaseClass.OnCopyBuildOutput (self : BuildTabTopPanelBaseClass) (event : wxCommandEvent) :
    BuildTabTopPanelBaseClass × wxCommandEvent :=
  (self, wxEvent.Skip event none)

/-- The handler `BuildTabTopPanelBaseClass::OnCopyBuildOutputUI` (wxcrafter.h, line 105). -/
def BuildTabTopPanelBaseClass.OnCopyBuildOutputUI (self : BuildTabTopPanelBaseClass) (event : wxUpdateUIEvent) :
    BuildTabTopPanelBaseClass × wxUpdateUIEvent :=
  (self, wxEvent.Skip event none)

/-- The handler `BuildTabTopPanelBaseClass::OnPaste` (wxcrafter.h, line 106). -/
def BuildTabTopPanelBaseClass.OnPaste (self : BuildTabTopPanelBaseClass) (event : wxCommandEvent) :
    BuildTabTopPanelBaseClass × wxCommandEvent :=
  (self, wxEvent.Skip event none)

/-- The handler `BuildTabTopPanelBaseClass::OnPasteUI` (wxcrafter.h, line 107). -/
def BuildTabTopPanelBaseClass.OnPasteUI (self : BuildTabTopPanelBaseClass) (event : wxUpdateUIEvent) :
    BuildTabTopPanelBaseClass × wxUpdateUIEvent :=
  (self, wxEvent.Skip event none)

/-- The members that `AddFunctionsImplBaseDlg` declares (wxcrafter.h, lines 148-156). -/
structure AddFunctionsImplBaseDlg where
  m_banner125 : Ptr
  m_filePicker : Ptr
  m_dataview : Ptr
  m_dataviewModel : Ptr
  m_button133 : Ptr
  m_button135 : Ptr
  m_button121 : Ptr
  m_button123 : Ptr
  deriving DecidableEq, Repr

/-- The handler `AddFunctionsImplBaseDlg::OnCheckAll` (wxcrafter.h, line 159). -/
def AddFunctionsImplBaseDlg.OnCheckAll (self : AddFunctionsImplBaseDlg) (event : wxCommandEvent) :
    AddFunctionsImplBaseDlg × wxCommandEvent :=
  (self, wxEvent.Skip event none)

/-- The handler `AddFunctionsImplBaseDlg::OnUncheckAll` (wxcrafter.h, line 160). -/
def AddFunctionsImplBaseDlg.OnUncheckAll (self : AddFunctionsImplBaseDlg) (event : wxCommandEvent) :
    AddFunctionsImplBaseDlg × wxCommandEvent :=
  (self, wxEvent.Skip event none)

/-- The handler `AddFunctionsImplBaseDlg::OnOKUI` (wxcrafter.h, line 161). -/
def AddFunctionsImplBaseDlg.OnOKUI (self : AddFunctionsImplBaseDlg) (event : wxUpdateUIEvent) :
    AddFunctionsImplBaseDlg × wxUpdateUIEvent :=
  (self, wxEvent.Skip event none)

/-- The members that `WelcomePageBase` declares (wxcrafter.h, lines 179-187). -/
structure WelcomePageBase where
  m_scrollWin247 : Ptr
  m_panel191 : Ptr
  m_staticBitmap : Ptr
  m_cmdLnkBtnNewWorkspace : Ptr
  m_cmdLnkBtnNewProject : Ptr
  m_cmdLnkBtnWorkspaces : Ptr
  m_cmdLnkBtnFilesMenu : Ptr
  m_cmdLnkBtnForum : Ptr
  m_cmdLnkBtnWiki : Ptr
  deriving DecidableEq, Repr

/-- The handler `WelcomePageBase::OnSize` (wxcrafter.h, line 190). -/
def WelcomePageBase.OnSize (self : WelcomePageBase) (event : wxSizeEvent) :
    WelcomePageBase × wxSizeEvent :=
  (self, wxEvent.Skip event none)

/-- The handler `WelcomePageBase::OnNewWorkspace` (wxcrafter.h, line 191). -/
def WelcomePageBase.OnNewWorkspace (self : WelcomePageBase) (event : wxCommandEvent) :
    WelcomePageBase × wxCommandEvent :=
  (self, wxEvent.Skip event none)

/-- The handler `WelcomePageBase::OnOpenWorkspace` (wxcrafter.h, line 192). -/
def WelcomePageBase.OnOpenWorkspace (self : WelcomePageBase) (event : wxCommandEvent) :
    WelcomePageBase × wxCommandEvent :=
  (self, wxEvent.Skip event none)

/-- The handler `WelcomePageBase::OnShowWorkspaceMenu` (wxcrafter.h, line 193). -/
def WelcomePageBase.OnShowWorkspaceMenu (self : WelcomePageBase) (event : wxCommandEvent) :
    WelcomePageBase × wxCommandEvent :=
  (self, wxEvent.Skip event none)

/-- The handler `WelcomePageBase::OnRecentProjectUI` (wxcrafter.h, line 194). -/
def WelcomePageBase.OnRecentProjectUI (self : WelcomePageBase) (event : wxUpdateUIEvent) :
    WelcomePageBase × wxUpdateUIEvent :=
  (self, wxEvent.Skip event none)

/-- The handler `WelcomePageBase::OnShowFileseMenu` (wxcrafter.h, line 195). -/
def WelcomePageBase.OnShowFileseMenu (self : WelcomePageBase) (event : wxCommandEvent) :
    WelcomePageBase × wxCommandEvent :=
  (self, wxEvent.Skip event none)

/-- The handler `WelcomePageBase::OnRecentFileUI` (wxcrafter.h, line 196). -/
def WelcomePageBase.OnRecentFileUI (self : WelcomePageBase) (event : wxUpdateUIEvent) :
    WelcomePageBase × wxUpdateUIEvent :=
  (self, wxEvent.Skip event none)

/-- The handler `WelcomePageBase::OnOpenForums` (wxcrafter.h, line 197). -/
def WelcomePageBase.OnOpenForums (self : WelcomePageBase) (event : wxCommandEvent) :
    WelcomePageBase × wxCommandEvent :=
  (self, wxEvent.Skip event none)

/-- The handler `WelcomePageBase::OnOpenWiki` (wxcrafter.h, line 198). -/
def WelcomePageBase.OnOpenWiki (self : WelcomePageBase) (event : wxCommandEvent) :
    WelcomePageBase × wxCommandEvent :=
  (self, wxEvent.Skip event none)

/-- The member that `FileExplorerBase` declares (wxcrafter.h, line 218). -/
structure FileExplorerBase where
  m_genericDirCtrl : Ptr
  deriving DecidableEq, Repr

/-- The handler `FileExplorerBase::OnItemActivated` (wxcrafter.h, line 221). -/
def FileExplorerBase.OnItemActivated (self : FileExplorerBase) (event : wxTreeEvent) :
    FileExplorerBase × wxTreeEvent :=
  (self, wxEvent.Skip event none)

/-- The handler `FileExplorerBase::OnContextMenu` (wxcrafter.h, line 222). -/
def FileExplorerBase.OnContextMenu (self : FileExplorerBase) (event : wxTreeEvent) :
    FileExplorerBase × wxTreeEvent :=
  (self, wxEvent.Skip event none)

/-- The handler `FileExplorerBase::OnKeyDown` (wxcrafter.h, line 223). -/
def FileExplorerBase.OnKeyDown (self : FileExplorerBase) (event : wxTreeEvent) :
    FileExplorerBase × wxTreeEvent :=
  (self, wxEvent.Skip event none)

/-- The members that `WorkspaceTabBase` declares (wxcrafter.h, lines 242-246). -/
structure WorkspaceTabBase where
  m_simpleBook : Ptr
  m_panelCxx : Ptr
  m_auibar : Ptr
  m_configChangeCtrl : Ptr
  m_fileView : Ptr
  deriving DecidableEq, Repr

/-- The handler `WorkspaceTabBase::OnCollapseAll` (wxcrafter.h, line 249). -/
def WorkspaceTabBase.OnCollapseAll (self : WorkspaceTabBase) (event : wxCommandEvent) :
    WorkspaceTabBase × wxCommandEvent :=
  (self, wxEvent.Skip event none)

/-- The handler `WorkspaceTabBase::OnCollapseAllUI` (wxcrafter.h, line 250). -/
def WorkspaceTabBase.OnCollapseAllUI (self : WorkspaceTabBase) (event : wxUpdateUIEvent) :
    WorkspaceTabBase × wxUpdateUIEvent :=
  (self, wxEvent.Skip event none)

/-- The handler `WorkspaceTabBase::OnGoHome` (wxcrafter.h, line 251). -/
def WorkspaceTabBase.OnGoHome (self : WorkspaceTabBase) (event : wxCommandEvent) :
    WorkspaceTabBase × wxCommandEvent :=
  (self, wxEvent.Skip event none)

/-- The handler `WorkspaceTabBase::OnGoHomeUI` (wxcrafter.h, line 252). -/
def WorkspaceTabBase.OnGoHomeUI (self : WorkspaceTabBase) (event : wxUpdateUIEvent) :
    WorkspaceTabBase × wxUpdateUIEvent :=
  (self, wxEvent.Skip event none)

/-- The handler `WorkspaceTabBase::OnProjectSettings` (wxcrafter.h, line 253). -/
def WorkspaceTabBase.OnProjectSettings (self : WorkspaceTabBase) (event : wxCommandEvent) :
    WorkspaceTabBase × wxCommandEvent :=
  (self, wxEvent.Skip event none)

/-- The handler `WorkspaceTabBase::OnProjectSettingsUI` (wxcrafter.h, line 254). -/
def WorkspaceTabBase.OnProjectSettingsUI (self : WorkspaceTabBase) (event : wxUpdateUIEvent) :
    WorkspaceTabBase × wxUpdateUIEvent :=
  (self, wxEvent.Skip event none)

/-- The handler `WorkspaceTabBase::OnLinkEditor` (wxcrafter.h, line 255). -/
def WorkspaceTabBase.OnLinkEditor (self : WorkspaceTabBase) (event : wxCommandEvent) :
    WorkspaceTabBase × wxCommandEvent :=
  (self, wxEvent.Skip event none)

/-- The handler `WorkspaceTabBase::OnLinkEditorUI` (wxcrafter.h, line 256). -/
def WorkspaceTabBase.OnLinkEditorUI (self : WorkspaceTabBase) (event : wxUpdateUIEvent) :
    WorkspaceTabBase × wxUpdateUIEvent :=
  (self, wxEvent.Skip event none)

/-- The members that `EditorFrameBase` declares (wxcrafter.h, lines 272-273). -/
structure EditorFrameBase where
  m_mainPanel : Ptr
  m_toolbar : Ptr
  deriving DecidableEq, Repr

/-- The handler `EditorFrameBase::OnCloseWindow` (wxcrafter.h, line 276). -/
def EditorFrameBase.OnCloseWindow (self : EditorFrameBase) (event : wxCloseEvent) :
    EditorFrameBase × wxCloseEvent :=
  (self, wxEvent.Skip event none)

/-- The handler `EditorFrameBase::OnClose` (wxcrafter.h, line 277). -/
def EditorFrameBase.OnClose (self : EditorFrameBase) (event : wxCommandEvent) :
    EditorFrameBase × wxCommandEvent :=
  (self, wxEvent.Skip event none)

/-- The handler `EditorFrameBase::OnCloseUI` (wxcrafter.h, line 278). -/
def EditorFrameBase.OnCloseUI (self : EditorFrameBase) (event : wxUpdateUIEvent) :
    EditorFrameBase × wxUpdateUIEvent :=
  (self, wxEvent.Skip event none)

/-- The handler `EditorFrameBase::OnFind` (wxcrafter.h, line 279). -/
def EditorFrameBase.OnFind (self : EditorFrameBase) (event : wxCommandEvent) :
    EditorFrameBase × wxCommandEvent :=
  (self, wxEvent.Skip event none)

/-- The handler `EditorFrameBase::OnFindUI` (wxcrafter.h, line 280). -/
def EditorFrameBase.OnFindUI (self : EditorFrameBase) (event : wxUpdateUIEvent) :
    EditorFrameBase × wxUpdateUIEvent :=
  (self, wxEvent.Skip event none)

/-- The members that `NewProjectWizardBase` declares (wxcrafter.h, lines 293-316). -/
structure NewProjectWizardBase where
  m_pages : List Ptr
  m_wizardPageTemplate : Ptr
  m_banner386 : Ptr
  m_dataviewTemplates : Ptr
  m_dataviewTemplatesModel : Ptr
  m_wizardPageDetails : Ptr
  m_banner398 : Ptr
  m_staticText16 : Ptr
  m_txtProjName : Ptr
  m_staticText18 : Ptr
  m_textCtrlProjectPath : Ptr
  m_buttonBrowse : Ptr
  m_cbSeparateDir : Ptr
  m_stxtFullFileName : Ptr
  m_wizardPageToolchain : Ptr
  m_banner390 : Ptr
  m_staticText414 : Ptr
  m_choiceCompiler : Ptr
  m_staticText418 : Ptr
  m_choiceDebugger : Ptr
  m_staticText569 : Ptr
  m_choiceBuildSystem : Ptr
  deriving DecidableEq, Repr

/-- The handler `NewProjectWizardBase::OnPageChanging` (wxcrafter.h, line 319). -/
def NewProjectWizardBase.OnPageChanging (self : NewProjectWizardBase) (event : wxWizardEvent) :
    NewProjectWizardBase × wxWizardEvent :=
  (self, wxEvent.Skip event none)

/-- The handler `NewProjectWizardBase::OnFinish` (wxcrafter.h, line 320). -/
def NewProjectWizardBase.OnFinish (self : NewProjectWizardBase) (event : wxWizardEvent) :
    NewProjectWizardBase × wxWizardEvent :=
  (self, wxEvent.Skip event none)

/-- The handler `NewProjectWizardBase::OnItemSelected` (wxcrafter.h, line 321). -/
def NewProjectWizardBase.OnItemSelected (self : NewProjectWizardBase) (event : wxDataViewEvent) :
    NewProjectWizardBase × wxDataViewEvent :=
  (self, wxEvent.Skip event none)

/-- The handler `NewProjectWizardBase::OnProjectNameChanged` (wxcrafter.h, line 322). -/
def NewProjectWizardBase.OnProjectNameChanged (self : NewProjectWizardBase) (event : wxCommandEvent) :
    NewProjectWizardBase × wxCommandEvent :=
  (self, wxEvent.Skip event none)

/-- The handler `NewProjectWizardBase::OnProjectPathUpdated` (wxcrafter.h, line 323). -/
def NewProjectWizardBase.OnProjectPathUpdated (self : NewProjectWizardBase) (event : wxCommandEvent) :
    NewProjectWizardBase × wxCommandEvent :=
  (self, wxEvent.Skip event none)

/-- The handler `NewProjectWizardBase::OnBrowseProjectPath` (wxcrafter.h, line 324). -/
def NewProjectWizardBase.OnBrowseProjectPath (self : NewProjectWizardBase) (event : wxCommandEvent) :
    NewProjectWizardBase × wxCommandEvent :=
  (self, wxEvent.Skip event none)

/-- The handler `NewProjectWizardBase::OnCompilerSelected` (wxcrafter.h, line 325). -/
def NewProjectWizardBase.OnCompilerSelected (self : NewProjectWizardBase) (event : wxCommandEvent) :
    NewProjectWizardBase × wxCommandEvent :=
  (self, wxEvent.Skip event none)

/-- The handler `NewProjectWizardBase::OnDebuggerSelected` (wxcrafter.h, line 326). -/
def NewProjectWizardBase.OnDebuggerSelected (self : NewProjectWizardBase) (event : wxCommandEvent) :
    NewProjectWizardBase × wxCommandEvent :=
  (self, wxEvent.Skip event none)

/-- The members that `ClangOutputTabBase` declares (wxcrafter.h, lines 363-366). -/
structure ClangOutputTabBase where
  m_auibar : Ptr
  m_checkBoxEnableClang : Ptr
  m_checkBoxShowErrors : Ptr
  m_stc : Ptr
  deriving DecidableEq, Repr

/-- The handler `ClangOutputTabBase::OnEnableClang` (wxcrafter.h, line 369). -/
def ClangOutputTabBase.OnEnableClang (self : ClangOutputTabBase) (event : wxCommandEvent) :
    ClangOutputTabBase × wxCommandEvent :=
  (self, wxEvent.Skip event none)

/-- The handler `ClangOutputTabBase::OnEnableClangUI` (wxcrafter.h, line 370). -/
def ClangOutputTabBase.OnEnableClangUI (self : ClangOutputTabBase) (event : wxUpdateUIEvent) :
    ClangOutputTabBase × wxUpdateUIEvent :=
  (self, wxEvent.Skip event none)

/-- The handler `ClangOutputTabBase::OnShowAnnotations` (wxcrafter.h, line 371). -/
def ClangOutputTabBase.OnShowAnnotations (self : ClangOutputTabBase) (event : wxCommandEvent) :
    ClangOutputTabBase × wxCommandEvent :=
  (self, wxEvent.Skip event none)

/-- The handler `ClangOutputTabBase::OnShowAnnotationsUI` (wxcrafter.h, line 372). -/
def ClangOutputTabBase.OnShowAnnotationsUI (self : ClangOutputTabBase) (event : wxUpdateUIEvent) :
    ClangOutputTabBase × wxUpdateUIEvent :=
  (self, wxEvent.Skip event none)

/-- The handler `ClangOutputTabBase::OnClearCache` (wxcrafter.h, line 373). -/
def ClangOutputTabBase.OnClearCache (self : ClangOutputTabBase) (event : wxCommandEvent) :
    ClangOutputTabBase × wxCommandEvent :=
  (self, wxEvent.Skip event none)

/-- The handler `ClangOutputTabBase::OnClearCacheUI` (wxcrafter.h, line 374). -/
def ClangOutputTabBase.OnClearCacheUI (self : ClangOutputTabBase) (event : wxUpdateUIEvent) :
    ClangOutputTabBase × wxUpdateUIEvent :=
  (self, wxEvent.Skip event none)

/-- The handler `ClangOutputTabBase::OnClearText` (wxcrafter.h, line 375). -/
def ClangOutputTabBase.OnClearText (self : ClangOutputTabBase) (event : wxCommandEvent) :
    ClangOutputTabBase × wxCommandEvent :=
  (self, wxEvent.Skip event none)

/-- The handler `ClangOutputTabBase::OnClearTextUI` (wxcrafter.h, line 376). -/
def ClangOutputTabBase.OnClearTextUI (self : ClangOutputTabBase) (event : wxUpdateUIEvent) :
    ClangOutputTabBase × wxUpdateUIEvent :=
  (self, wxEvent.Skip event none)

/-- The members that `OpenFolderDlgBase` declares (wxcrafter.h, lines 391-395). -/
structure OpenFolderDlgBase where
  m_staticText479 : Ptr
  m_textCtrlFolder : Ptr
  m_stdBtnSizer473 : Ptr
  m_button475 : Ptr
  m_button477 : Ptr
  deriving DecidableEq, Repr

/-- The members that `DefaultWorkspacePageBase` declares (wxcrafter.h, lines 410-411). -/
structure DefaultWorkspacePageBase where
  m_staticText523 : Ptr
  m_staticBitmap521 : Ptr
  deriving DecidableEq, Repr

/-- The members that `SelectDropTargetBaseDlg` declares (wxcrafter.h, lines 426-430). -/
structure SelectDropTargetBaseDlg where
  m_banner : Ptr
  m_dvListCtrl : Ptr
  m_stdBtnSizer543 : Ptr
  m_button545 : Ptr
  m_button547 : Ptr
  deriving DecidableEq, Repr

/-- The handler `SelectDropTargetBaseDlg::OnSelectionActivated` (wxcrafter.h, line 433). -/
def SelectDropTargetBaseDlg.OnSelectionActivated (self : SelectDropTargetBaseDlg) (event : wxDataViewEvent) :
    SelectDropTargetBaseDlg × wxDataViewEvent :=
  (self, wxEvent.Skip event none)

/-- The handler `SelectDropTargetBaseDlg::OnOKUI` (wxcrafter.h, line 434). -/
def SelectDropTargetBaseDlg.OnOKUI (self : SelectDropTargetBaseDlg) (event : wxUpdateUIEvent) :
    SelectDropTargetBaseDlg × wxUpdateUIEvent :=
  (self, wxEvent.Skip event none)

/-- The handler `SelectDropTargetBaseDlg::OnOK` (wxcrafter.h, line 435). -/
def SelectDropTargetBaseDlg.OnOK (self : SelectDropTargetBaseDlg) (event : wxCommandEvent) :
    SelectDropTargetBaseDlg × wxCommandEvent :=
  (self, wxEvent.Skip event none)

/-- The widget base classes of wxcrafter.h. -/
inductive WidgetClass where
  | NavBarControlBaseClass
  | BuildTabTopPanelBaseClass
  | AddFunctionsImplBaseDlg
  | WelcomePageBase
  | FileExplorerBase
  | WorkspaceTabBase
  | EditorFrameBase
  | NewProjectWizardBase
  | ClangOutputTabBase
  | OpenFolderDlgBase
  | DefaultWorkspacePageBase
  | SelectDropTargetBaseDlg
  deriving DecidableEq, Repr

/-- The members of an object of a widget base class. -/
def WidgetClass.Object : WidgetClass → Type
  | .NavBarControlBaseClass => CodeLite.NavBarControlBaseClass
  | .BuildTabTopPanelBaseClass => CodeLite.BuildTabTopPanelBaseClass
  | .AddFunctionsImplBaseDlg => CodeLite.AddFunctionsImplBaseDlg
  | .WelcomePageBase => CodeLite.WelcomePageBase
  | .FileExplorerBase => CodeLite.FileExplorerBase
  | .WorkspaceTabBase => CodeLite.WorkspaceTabBase
  | .EditorFrameBase => CodeLite.EditorFrameBase
  | .NewProjectWizardBase => CodeLite.NewProjectWizardBase
  | .ClangOutputTabBase => CodeLite.ClangOutputTabBase
  | .OpenFolderDlgBase => CodeLite.OpenFolderDlgBase
  | .DefaultWorkspacePageBase => CodeLite.DefaultWorkspacePageBase
  | .SelectDropTargetBaseDlg => CodeLite.SelectDropTargetBaseDlg

/-- The default event handlers of wxcrafter.h, each with the class that
declares it: every `virtual void On...` with a body. -/
inductive DefaultHandler : WidgetClass → Type where
  | NavBarControlBaseClass_OnScope : DefaultHandler .NavBarControlBaseClass
  | NavBarControlBaseClass_OnFunction : DefaultHandler .NavBarControlBaseClass
  | BuildTabTopPanelBaseClass_OnToolPinCommandToolClicked : DefaultHandler .BuildTabTopPanelBaseClass
  | BuildTabTopPanelBaseClass_OnAutoScroll : DefaultHandler .BuildTabTopPanelBaseClass
  | BuildTabTopPanelBaseClass_OnAutoScrollUI : DefaultHandler .BuildTabTopPanelBaseClass
  | BuildTabTopPanelBaseClass_OnClearBuildOutput : DefaultHandler .BuildTabTopPanelBaseClass
  | BuildTabTopPanelBaseClass_OnClearBuildOutputUI : DefaultHandler .BuildTabTopPanelBaseClass
  | BuildTabTopPanelBaseClass_OnSaveBuildOutput : DefaultHandler .BuildTabTopPanelBaseClass
  | BuildTabTopPanelBaseClass_OnSaveBuildOutputUI : DefaultHandler .BuildTabTopPanelBaseClass
  | BuildTabTopPanelBaseClass_OnCopyBuildOutput : DefaultHandler .BuildTabTopPanelBaseClass
  | BuildTabTopPanelBaseClass_OnCopyBuildOutputUI : DefaultHandler .BuildTabTopPanelBaseClass
  | BuildTabTopPanelBaseClass_OnPaste : DefaultHandler .BuildTabTopPanelBaseClass
  | BuildTabTopPanelBaseClass_OnPasteUI : DefaultHandler .BuildTabTopPanelBaseClass
  | AddFunctionsImplBaseDlg_OnCheckAll : DefaultHandler .AddFunctionsImplBaseDlg
  | AddFunctionsImplBaseDlg_OnUncheckAll : DefaultHandler .AddFunctionsImplBaseDlg
  | AddFunctionsImplBaseDlg_OnOKUI : DefaultHandler .AddFunctionsImplBaseDlg
  | WelcomePageBase_OnSize : DefaultHandler .WelcomePageBase
  | WelcomePageBase_OnNewWorkspace : DefaultHandler .WelcomePageBase
  | WelcomePageBase_OnOpenWorkspace : DefaultHandler .WelcomePageBase
  | WelcomePageBase_OnShowWorkspaceMenu : DefaultHandler .WelcomePageBase
  | WelcomePageBase_OnRecentProjectUI : DefaultHandler .WelcomePageBase
  | WelcomePageBase_OnShowFileseMenu : DefaultHandler .WelcomePageBase
  | WelcomePageBase_OnRecentFileUI : DefaultHandler .WelcomePageBase
  | WelcomePageBase_OnOpenForums : DefaultHandler .WelcomePageBase
  | WelcomePageBase_OnOpenWiki : DefaultHandler .WelcomePageBase
  | FileExplorerBase_OnItemActivated : DefaultHandler .FileExplorerBase
  | FileExplorerBase_OnContextMenu : DefaultHandler .FileExplorerBase
  | FileExplorerBase_OnKeyDown : DefaultHandler .FileExplorerBase
  | WorkspaceTabBase_OnCollapseAll : DefaultHandler .WorkspaceTabBase
  | WorkspaceTabBase_OnCollapseAllUI : DefaultHandler .WorkspaceTabBase
  | WorkspaceTabBase_OnGoHome : DefaultHandler .WorkspaceTabBase
  | WorkspaceTabBase_OnGoHomeUI : DefaultHandler .WorkspaceTabBase
  | WorkspaceTabBase_OnProjectSettings : DefaultHandler .WorkspaceTabBase
  | WorkspaceTabBase_OnProjectSettingsUI : DefaultHandler .WorkspaceTabBase
  | WorkspaceTabBase_OnLinkEditor : DefaultHandler .WorkspaceTabBase
  | WorkspaceTabBase_OnLinkEditorUI : DefaultHandler .WorkspaceTabBase
  | EditorFrameBase_OnCloseWindow : DefaultHandler .EditorFrameBase
  | EditorFrameBase_OnClose : DefaultHandler .EditorFrameBase
  | EditorFrameBase_OnCloseUI : DefaultHandler .EditorFrameBase
  | EditorFrameBase_OnFind : DefaultHandler .EditorFrameBase
  | EditorFrameBase_OnFindUI : DefaultHandler .EditorFrameBase
  | NewProjectWizardBase_OnPageChanging : DefaultHandler .NewProjectWizardBase
  | NewProjectWizardBase_OnFinish : DefaultHandler .NewProjectWizardBase
  | NewProjectWizardBase_OnItemSelected : DefaultHandler .NewProjectWizardBase
  | NewProjectWizardBase_OnProjectNameChanged : DefaultHandler .NewProjectWizardBase
  | NewProjectWizardBase_OnProjectPathUpdated : DefaultHandler .NewProjectWizardBase
  | NewProjectWizardBase_OnBrowseProjectPath : DefaultHandler .NewProjectWizardBase
  | NewProjectWizardBase_OnCompilerSelected : DefaultHandler .NewProjectWizardBase
  | NewProjectWizardBase_OnDebuggerSelected : DefaultHandler .NewProjectWizardBase
  | ClangOutputTabBase_OnEnableClang : DefaultHandler .ClangOutputTabBase
  | ClangOutputTabBase_OnEnableClangUI : DefaultHandler .ClangOutputTabBase
  | ClangOutputTabBase_OnShowAnnotations : DefaultHandler .ClangOutputTabBase
  | ClangOutputTabBase_OnShowAnnotationsUI : DefaultHandler .ClangOutputTabBase
  | ClangOutputTabBase_OnClearCache : DefaultHandler .ClangOutputTabBase
  | ClangOutputTabBase_OnClearCacheUI : DefaultHandler .ClangOutputTabBase
  | ClangOutputTabBase_OnClearText : DefaultHandler .ClangOutputTabBase
  | ClangOutputTabBase_OnClearTextUI : DefaultHandler .ClangOutputTabBase
  | SelectDropTargetBaseDlg_OnSelectionActivated : DefaultHandler .SelectDropTargetBaseDlg
  | SelectDropTargetBaseDlg_OnOKUI : DefaultHandler .SelectDropTargetBaseDlg
  | SelectDropTargetBaseDlg_OnOK : DefaultHandler .SelectDropTargetBaseDlg

/-- A call of a default handler on an object of its class with an event. -/
def DefaultHandler.call : {c : WidgetClass} → DefaultHandler c → c.Object → wxEvent →
    c.Object × wxEvent
  | _, .NavBarControlBaseClass_OnScope => CodeLite.NavBarControlBaseClass.OnScope
  | _, .NavBarControlBaseClass_OnFunction => CodeLite.NavBarControlBaseClass.OnFunction
  | _, .BuildTabTopPanelBaseClass_OnToolPinCommandToolClicked => CodeLite.BuildTabTopPanelBaseClass.OnToolPinCommandToolClicked
  | _, .BuildTabTopPanelBaseClass_OnAutoScroll => CodeLite.BuildTabTopPanelBaseClass.OnAutoScroll
  | _, .BuildTabTopPanelBaseClass_OnAutoScrollUI => CodeLite.BuildTabTopPanelBaseClass.OnAutoScrollUI
  | _, .BuildTabTopPanelBaseClass_OnClearBuildOutput => CodeLite.BuildTabTopPanelBaseClass.OnClearBuildOutput
  | _, .BuildTabTopPanelBaseClass_OnClearBuildOutputUI => CodeLite.BuildTabTopPanelBaseClass.OnClearBuildOutputUI
  | _, .BuildTabTopPanelBaseClass_OnSaveBuildOutput => CodeLite.BuildTabTopPanelBaseClass.OnSaveBuildOutput
  | _, .BuildTabTopPanelBaseClass_OnSaveBuildOutputUI => CodeLite.BuildTabTopPanelBaseClass.OnSaveBuildOutputUI
  | _, .BuildTabTopPanelBaseClass_OnCopyBuildOutput => CodeLite.BuildTabTopPanelBaseClass.OnCopyBuildOutput
  | _, .BuildTabTopPanelBaseClass_OnCopyBuildOutputUI => CodeLite.BuildTabTopPanelBaseClass.OnCopyBuildOutputUI
  | _, .BuildTabTopPanelBaseClass_OnPaste => CodeLite.BuildTabTopPanelBaseClass.OnPaste
  | _, .BuildTabTopPanelBaseClass_OnPasteUI => CodeLite.BuildTabTopPanelBaseClass.OnPasteUI
  | _, .AddFunctionsImplBaseDlg_OnCheckAll => CodeLite.AddFunctionsImplBaseDlg.OnCheckAll
  | _, .AddFunctionsImplBaseDlg_OnUncheckAll => CodeLite.AddFunctionsImplBaseDlg.OnUncheckAll
  | _, .AddFunctionsImplBaseDlg_OnOKUI => CodeLite.AddFunctionsImplBaseDlg.OnOKUI
  | _, .WelcomePageBase_OnSize => CodeLite.WelcomePageBase.OnSize
  | _, .WelcomePageBase_OnNewWorkspace => CodeLite.WelcomePageBase.OnNewWorkspace
  | _, .WelcomePageBase_OnOpenWorkspace => CodeLite.WelcomePageBase.OnOpenWorkspace
  | _, .WelcomePageBase_OnShowWorkspaceMenu => CodeLite.WelcomePageBase.OnShowWorkspaceMenu
  | _, .WelcomePageBase_OnRecentProjectUI => CodeLite.WelcomePageBase.OnRecentProjectUI
  | _, .WelcomePageBase_OnShowFileseMenu => CodeLite.WelcomePageBase.OnShowFileseMenu
  | _, .WelcomePageBase_OnRecentFileUI => CodeLite.WelcomePageBase.OnRecentFileUI
  | _, .WelcomePageBase_OnOpenForums => CodeLite.WelcomePageBase.OnOpenForums
  | _, .WelcomePageBase_OnOpenWiki => CodeLite.WelcomePageBase.OnOpenWiki
  | _, .FileExplorerBase_OnItemActivated => CodeLite.FileExplorerBase.OnItemActivated
  | _, .FileExplorerBase_OnContextMenu => CodeLite.FileExplorerBase.OnContextMenu
  | _, .FileExplorerBase_OnKeyDown => CodeLite.FileExplorerBase.OnKeyDown
  | _, .WorkspaceTabBase_OnCollapseAll => CodeLite.WorkspaceTabBase.OnCollapseAll
  | _, .WorkspaceTabBase_OnCollapseAllUI => CodeLite.WorkspaceTabBase.OnCollapseAllUI
  | _, .WorkspaceTabBase_OnGoHome => CodeLite.WorkspaceTabBase.OnGoHome
  | _, .WorkspaceTabBase_OnGoHomeUI => CodeLite.WorkspaceTabBase.OnGoHomeUI
  | _, .WorkspaceTabBase_OnProjectSettings => CodeLite.WorkspaceTabBase.OnProjectSettings
  | _, .WorkspaceTabBase_OnProjectSettingsUI => CodeLite.WorkspaceTabBase.OnProjectSettingsUI
  | _, .WorkspaceTabBase_OnLinkEditor => CodeLite.WorkspaceTabBase.OnLinkEditor
  | _, .WorkspaceTabBase_OnLinkEditorUI => CodeLite.WorkspaceTabBase.OnLinkEditorUI
  | _, .EditorFrameBase_OnCloseWindow => CodeLite.EditorFrameBase.OnCloseWindow
  | _, .EditorFrameBase_OnClose => CodeLite.EditorFrameBase.OnClose
  | _, .EditorFrameBase_OnCloseUI => CodeLite.EditorFrameBase.OnCloseUI
  | _, .EditorFrameBase_OnFind => CodeLite.EditorFrameBase.OnFind
  | _, .EditorFrameBase_OnFindUI => CodeLite.EditorFrameBase.OnFindUI
  | _, .NewProjectWizardBase_OnPageChanging => CodeLite.NewProjectWizardBase.OnPageChanging
  | _, .NewProjectWizardBase_OnFinish => CodeLite.NewProjectWizardBase.OnFinish
  | _, .NewProjectWizardBase_OnItemSelected => CodeLite.NewProjectWizardBase.OnItemSelected
  | _, .NewProjectWizardBase_OnProjectNameChanged => CodeLite.NewProjectWizardBase.OnProjectNameChanged
  | _, .NewProjectWizardBase_OnProjectPathUpdated => CodeLite.NewProjectWizardBase.OnProjectPathUpdated
  | _, .NewProjectWizardBase_OnBrowseProjectPath => CodeLite.NewProjectWizardBase.OnBrowseProjectPath
  | _, .NewProjectWizardBase_OnCompilerSelected => CodeLite.NewProjectWizardBase.OnCompilerSelected
  | _, .NewProjectWizardBase_OnDebuggerSelected => CodeLite.NewProjectWizardBase.OnDebuggerSelected
  | _, .ClangOutputTabBase_OnEnableClang => CodeLite.ClangOutputTabBase.OnEnableClang
  | _, .ClangOutputTabBase_OnEnableClangUI => CodeLite.ClangOutputTabBase.OnEnableClangUI
  | _, .ClangOutputTabBase_OnShowAnnotations => CodeLite.ClangOutputTabBase.OnShowAnnotations
  | _, .ClangOutputTabBase_OnShowAnnotationsUI => CodeLite.ClangOutputTabBase.OnShowAnnotationsUI
  | _, .ClangOutputTabBase_OnClearCache => CodeLite.ClangOutputTabBase.OnClearCache
  | _, .ClangOutputTabBase_OnClearCacheUI => CodeLite.ClangOutputTabBase.OnClearCacheUI
  | _, .ClangOutputTabBase_OnClearText => CodeLite.ClangOutputTabBase.OnClearText
  | _, .ClangOutputTabBase_OnClearTextUI => CodeLite.ClangOutputTabBase.OnClearTextUI
  | _, .SelectDropTargetBaseDlg_OnSelectionActivated => CodeLite.SelectDropTargetBaseDlg.OnSelectionActivated
  | _, .SelectDropTargetBaseDlg_OnOKUI => CodeLite.SelectDropTargetBaseDlg.OnOKUI
  | _, .SelectDropTargetBaseDlg_OnOK => CodeLite.SelectDropTargetBaseDlg.OnOK

/-! ## `imanager.h` -/

/-- The enumeration `TreeType` (imanager.h, lines 57-60). -/
inductive TreeType where
  | TreeFileView
  | TreeFileExplorer
  deriving DecidableEq, Repr

/-- The integer value of an enumerator: `TreeFileView = 0` is written out,
`TreeFileExplorer` has no initializer and takes the value of the enumerator
before it plus one. -/
def TreeType.toInt : TreeType → Int
  | .TreeFileView => 0
  | .TreeFileExplorer => 0 + 1

/-- A member function as a class declares it. `body` is `none` for a
declaration without a body and holds the statements of the body otherwise,
so `some []` is the empty body. -/
structure MemberFunction where
  name : String
  returns : String
  params : List String
  isConst : Bool
  isVirtual : Bool
  isPureVirtual : Bool
  body : Option (List String)
  deriving DecidableEq, Repr

/-- A class declaration: its base classes, its data members (type and
name), its constructors, its destructor and its other member functions. -/
structure ClassDecl where
  name : String
  bases : List String
  dataMembers : List (String × String)
  constructors : List MemberFunction
  destructor : Option MemberFunction
  operations : List MemberFunction
  deriving DecidableEq, Repr

/-- The declaration of the class `TreeItemInfo` (imanager.h, lines 45-52). -/
def TreeItemInfo_decl : ClassDecl where
  name := "TreeItemInfo"
  bases := []
  dataMembers := [("wxTreeItemId", "m_item"), ("wxFileName", "m_fileName"),
    ("wxString", "m_text"), ("int", "m_itemType")]
  constructors := []
  destructor := none
  operations := []

/-- The declaration of the class `IManager` (imanager.h, lines 73-233). -/
def IManager_decl : ClassDecl where
  name := "IManager"
  bases := []
  dataMembers := []
  constructors := [⟨"IManager", "", [], false, false, false, some []⟩]
  destructor := some ⟨"~IManager", "", [], false, true, false, some []⟩
  operations := [
    ⟨"GetActiveEditor", "IEditor *", [], false, true, true, none⟩,
    ⟨"OpenFile", "void", ["const wxString &fileName", "const wxString &projectName", "int lineno = wxNOT_FOUND"], false, true, true, none⟩,
    ⟨"GetConfigTool", "IConfigTool *", [], false, true, true, none⟩,
    ⟨"GetSelectedTreeItemInfo", "TreeItemInfo", ["TreeType type"], false, true, true, none⟩,
    ⟨"GetTree", "wxTreeCtrl *", ["TreeType type"], false, true, true, none⟩,
    ⟨"GetOutputPaneNotebook", "Notebook *", [], false, true, true, none⟩,
    ⟨"GetStartupDirectory", "wxString", [], true, true, true, none⟩,
    ⟨"GetInstallDirectory", "wxString", [], true, true, true, none⟩,
    ⟨"AddProject", "void", ["const wxString & path"], false, true, true, none⟩,
    ⟨"IsWorkspaceOpen", "bool", [], true, true, true, none⟩,
    ⟨"GetTagsManager", "TagsManager *", [], false, true, true, none⟩,
    ⟨"GetWorkspace", "Workspace *", [], false, true, true, none⟩,
    ⟨"AddFilesToVirtualFodler", "bool", ["wxTreeItemId &item", "wxArrayString &paths"], false, true, true, none⟩,
    ⟨"AddFilesToVirtualFodler", "bool", ["const wxString &vdFullPath", "wxArrayString &paths"], false, true, true, none⟩,
    ⟨"GetToolbarIconSize", "int", [], false, true, true, none⟩,
    ⟨"GetMainNotebook", "Notebook *", [], false, true, true, none⟩,
    ⟨"GetDockingManager", "wxAuiManager*", [], false, true, true, none⟩,
    ⟨"GetEnv", "EnvironmentConfig *", [], false, true, true, none⟩,
    ⟨"GetJobQueue", "JobQueue *", [], false, true, true, none⟩,
    ⟨"GetProjectExecutionCommand", "wxString", ["const wxString &projectName", "wxString &wd"], false, true, true, none⟩,
    ⟨"GetTheApp", "wxApp *", [], false, true, true, none⟩,
    ⟨"ReloadWorkspace", "void", [], false, true, true, none⟩,
    ⟨"GetPlugin", "IPlugin *", ["const wxString &pluginName"], false, true, true, none⟩,
    ⟨"AppendOutputMsg", "void", ["const wxString &msg"], false, true, true, none⟩,
    ⟨"SaveAll", "void", [], false, true, true, none⟩,
    ⟨"GetKeyboardManager", "IKeyboard *", [], false, true, true, none⟩
  ]

/-- The member functions of a class that the class itself implements. -/
def ClassDecl.implemented (c : ClassDecl) : List MemberFunction :=
  c.operations.filter (fun op => op.body.isSome)

/-- Modelled from the spec: the icon sizes of the host. The host's
implementation of `IManager::GetToolbarIconSize` is not under src/, where
imanager.h only declares the operation; its documentation reads "return the
size of the icons used by CodeLite", "@return 16 or 24". -/
inductive ToolbarIconSize where
  | small
  | large
  deriving DecidableEq, Repr

/-- Modelled from the spec: the state of a host that implements `IManager`,
as far as `GetToolbarIconSize` reads it: the size of the icons in use. -/
structure HostManager where
  m_iconsSize : ToolbarIconSize
  deriving DecidableEq, Repr

/-- Modelled from the spec: the host's implementation of
`IManager::GetToolbarIconSize` (declared in imanager.h, line 172, implemented
outside src/): "return the size of the icons used by CodeLite", which is
"16 or 24". -/
def HostManager.GetToolbarIconSize (self : HostManager) : HostManager × Int :=
  match self.m_iconsSize with
  | .small => (self, 16)
  | .large => (self, 24)

/-! ## Lemmas on the map -/

theorem BitmapMap.count_eq_zero_iff (m : BitmapMap) (k : wxString) :
    m.count k = 0 ↔ ∀ node ∈ m, node.1 ≠ k := by
  unfold BitmapMap.count
  by_cases h : m.any (fun node => node.1 == k) = true
  · rw [if_pos h]
    simp only [List.any_eq_true, beq_iff_eq] at h
    obtain ⟨node, hmem, hkey⟩ := h
    constructor
    · intro h0
      exact absurd h0 (by decide)
    · intro hall
      exact absurd hkey (hall node hmem)
  · rw [if_neg h]
    simp only [List.any_eq_true, beq_iff_eq, not_exists, not_and] at h
    constructor
    · intro _ node hmem
      exact h node hmem
    · intro _
      rfl

theorem BitmapMap.find_eq_none_iff (m : BitmapMap) (k : wxString) :
    m.find k = none ↔ ∀ node ∈ m, node.1 ≠ k := by
  unfold BitmapMap.find
  simp [List.find?_eq_none]

theorem BitmapMap.find_some (m : BitmapMap) (k : wxString) (node : wxString × wxBitmap)
    (h : m.find k = some node) : node.1 = k ∧ node ∈ m := by
  unfold BitmapMap.find at h
  have hp := List.find?_some h
  have hm := List.mem_of_find?_eq_some h
  simp only [beq_iff_eq] at hp
  exact ⟨hp, hm⟩

theorem NewProjImgList.Bitmap_eq (self : NewProjImgList) (name : wxString) :
    self.Bitmap name = some (self, self.m_bitmaps.lookupRef (name ++ self.m_resolution)) := by
  unfold NewProjImgList.Bitmap BitmapMap.lookupRef
  by_cases h0 : self.m_bitmaps.count (name ++ self.m_resolution) = 0
  · rw [if_pos h0]
    have hnone := (BitmapMap.find_eq_none_iff _ _).mpr ((BitmapMap.count_eq_zero_iff _ _).mp h0)
    rw [hnone]
  · rw [if_neg h0]
    cases hf : self.m_bitmaps.find (name ++ self.m_resolution) with
    | none =>
      exact absurd ((BitmapMap.count_eq_zero_iff _ _).mpr ((BitmapMap.find_eq_none_iff _ _).mp hf)) h0
    | some node => rfl

/-! ## Default event handlers -/

/-- Claim C1: a default handler does nothing but call `Skip()` on its event.
For every default `On...` handler of a widget base class, every object of the
class and every event, whatever its skipped flag was, the event after the call
is the event `Skip()` yields: it is marked as skipped, and its type and
identifier are as before. -/
theorem DefaultHandler.call_skips {c : WidgetClass} (handler : DefaultHandler c)
    (self : c.Object) (event : wxEvent) :
    (handler.call self event).2 = event.Skip none ∧
    (handler.call self event).2.GetSkipped = true ∧
    (handler.call self event).2.m_eventType = event.m_eventType ∧
    (handler.call self event).2.m_id = event.m_id := by
  cases handler <;> exact ⟨rfl, rfl, rfl, rfl⟩

/-- The default `OnScope` of `NavBarControlBaseClass` on an event that was not
skipped: the event comes back skipped, with its type and identifier. -/
theorem DefaultHandler.call_skips_witness :
    (DefaultHandler.call DefaultHandler.NavBarControlBaseClass_OnScope
      (⟨1, 2, 3, 4, 5⟩ : NavBarControlBaseClass) ⟨10, 100, false⟩).2 = ⟨10, 100, true⟩ :=
  (DefaultHandler.call_skips DefaultHandler.NavBarControlBaseClass_OnScope
    (⟨1, 2, 3, 4, 5⟩ : NavBarControlBaseClass) ⟨10, 100, false⟩).1

/-- Claim C2: a default handler is a no-op on the widget. For every widget base
class, every default `On...` handler it declares, every object of the class
and every event, the object after the call has every member as before. -/
theorem DefaultHandler.call_frame {c : WidgetClass} (handler : DefaultHandler c)
    (self : c.Object) (event : wxEvent) :
    (handler.call self event).1 = self := by
  cases handler <;> rfl

/-- The default `OnOK` of `SelectDropTargetBaseDlg` on an event that was
already skipped: the five members of the dialog come back as they were. -/
theorem DefaultHandler.call_frame_witness :
    (DefaultHandler.call DefaultHandler.SelectDropTargetBaseDlg_OnOK
      (⟨1, 2, 3, 4, 5⟩ : SelectDropTargetBaseDlg) ⟨10, 100, true⟩).1 = ⟨1, 2, 3, 4, 5⟩ :=
  DefaultHandler.call_frame DefaultHandler.SelectDropTargetBaseDlg_OnOK
    (⟨1, 2, 3, 4, 5⟩ : SelectDropTargetBaseDlg) ⟨10, 100, true⟩

/-! ## The image list -/

/-- Claim C3: `Bitmap` looks a bitmap up under the key `name + m_resolution`.
The call always returns and leaves the object as it was. When `find` reaches a
node for the key, that node is in the map, has the key, and the result refers
to its bitmap. The result is the global `wxNullBitmap` exactly when no node of
the map has the key. -/
theorem NewProjImgList.Bitmap_lookup (self : NewProjImgList) (name : wxString) :
    (∃ ref, self.Bitmap name = some (self, ref)) ∧
    (∀ node, self.m_bitmaps.find (name ++ self.m_resolution) = some node →
      node ∈ self.m_bitmaps ∧ node.1 = name ++ self.m_resolution ∧
      self.Bitmap name = some (self, wxBitmapRef.second node) ∧
      (wxBitmapRef.second node).get = node.2) ∧
    ((∃ node ∈ self.m_bitmaps, node.1 = name ++ self.m_resolution) →
      ∃ node ∈ self.m_bitmaps, node.1 = name ++ self.m_resolution ∧
        self.Bitmap name = some (self, wxBitmapRef.second node)) ∧
    (self.Bitmap name = some (self, wxBitmapRef.wxNullBitmap) ↔
      ∀ node ∈ self.m_bitmaps, node.1 ≠ name ++ self.m_resolution) := by
  have heq := NewProjImgList.Bitmap_eq self name
  refine ⟨⟨_, heq⟩, ?_, ?_, ?_⟩
  · intro node hfind
    obtain ⟨hkey, hmem⟩ := BitmapMap.find_some _ _ node hfind
    refine ⟨hmem, hkey, ?_, rfl⟩
    rw [heq, BitmapMap.lookupRef, hfind]
  · rintro ⟨node, hmem, hkey⟩
    cases hfind : self.m_bitmaps.find (name ++ self.m_resolution) with
    | none =>
      exact absurd hkey ((BitmapMap.find_eq_none_iff _ _).mp hfind node hmem)
    | some found =>
      obtain ⟨hkey', hmem'⟩ := BitmapMap.find_some _ _ found hfind
      refine ⟨found, hmem', hkey', ?_⟩
      rw [heq, BitmapMap.lookupRef, hfind]
  · rw [heq, BitmapMap.lookupRef]
    cases hfind : self.m_bitmaps.find (name ++ self.m_resolution) with
    | none =>
      simp only [true_iff]
      exact (BitmapMap.find_eq_none_iff _ _).mp hfind
    | some found =>
      obtain ⟨hkey', hmem'⟩ := BitmapMap.find_some _ _ found hfind
      constructor
      · intro hbad
        simp at hbad
      · intro hall
        exact absurd hkey' (hall found hmem')

/-- An image list at the resolution `@2x` that holds `gui@2x` and `gui`: the
name `cog` has no entry, so `Bitmap` answers with the global null bitmap. -/
theorem NewProjImgList.Bitmap_lookup_witness :
    NewProjImgList.Bitmap ⟨[("gui@2x", ⟨some 1⟩), ("gui", ⟨some 2⟩)], "@2x", 16, 16⟩ "cog" =
      some (⟨[("gui@2x", ⟨some 1⟩), ("gui", ⟨some 2⟩)], "@2x", 16, 16⟩,
        wxBitmapRef.wxNullBitmap) :=
  (NewProjImgList.Bitmap_lookup ⟨[("gui@2x", ⟨some 1⟩), ("gui", ⟨some 2⟩)], "@2x", 16, 16⟩
    "cog").2.2.2.mpr (by decide)

/-- Claim C4: `SetBitmapResolution(res)` sets the resolution of later lookups
and leaves the stored bitmaps alone. After it, `Bitmap(name)` returns what a
lookup of `name + res` in the map before the call returns: the stored bitmap
when there is one, the null bitmap otherwise. The resolution set before does
not matter. -/
theorem NewProjImgList.SetBitmapResolution_Bitmap (self : NewProjImgList)
    (res name : wxString) :
    (self.SetBitmapResolution (some res)).m_bitmaps = self.m_bitmaps ∧
    (self.SetBitmapResolution (some res)).m_resolution = res ∧
    (self.SetBitmapResolution (some res)).Bitmap name =
      some (self.SetBitmapResolution (some res), self.m_bitmaps.lookupRef (name ++ res)) ∧
    (∀ previous : wxString,
      (({ self with m_resolution := previous } : NewProjImgList).SetBitmapResolution
          (some res)).Bitmap name =
        (self.SetBitmapResolution (some res)).Bitmap name) := by
  refine ⟨rfl, rfl, ?_, ?_⟩
  · rw [NewProjImgList.Bitmap_eq]
    rfl
  · intro previous
    rfl

/-- An image list at the resolution `@1.5x` that holds `gui@2x` and `gui`:
after `SetBitmapResolution("@2x")` the name `gui` reaches the bitmap stored
under `gui@2x`. -/
theorem NewProjImgList.SetBitmapResolution_Bitmap_witness :
    (NewProjImgList.SetBitmapResolution
        ⟨[("gui@2x", ⟨some 1⟩), ("gui", ⟨some 2⟩)], "@1.5x", 16, 16⟩ (some "@2x")).Bitmap "gui" =
      some (⟨[("gui@2x", ⟨some 1⟩), ("gui", ⟨some 2⟩)], "@2x", 16, 16⟩,
        wxBitmapRef.second ("gui@2x", ⟨some 1⟩)) :=
  (NewProjImgList.SetBitmapResolution_Bitmap
    ⟨[("gui@2x", ⟨some 1⟩), ("gui", ⟨some 2⟩)], "@1.5x", 16, 16⟩ "@2x" "gui").2.2.1.trans
    (by decide)

/-- Claim C5: the default resolution is the empty string. A call of
`SetBitmapResolution` without an argument sets the resolution to the empty
string, and with the empty resolution `Bitmap(name)` looks up the key `name`
itself: the stored bitmap when `name` is a key, the null bitmap otherwise. -/
theorem NewProjImgList.default_resolution (self : NewProjImgList) (name : wxString) :
    (self.SetBitmapResolution none).m_resolution = "" ∧
    (self.SetBitmapResolution none).m_bitmaps = self.m_bitmaps ∧
    (self.SetBitmapResolution none).Bitmap name =
      some (self.SetBitmapResolution none, self.m_bitmaps.lookupRef name) ∧
    (({ self with m_resolution := "" } : NewProjImgList).Bitmap name =
      some ({ self with m_resolution := "" }, self.m_bitmaps.lookupRef name)) := by
  have hname : name ++ "" = name := String.append_empty name
  refine ⟨rfl, rfl, ?_, ?_⟩
  · rw [NewProjImgList.Bitmap_eq]
    show some (_, BitmapMap.lookupRef self.m_bitmaps (name ++ "")) = _
    rw [hname]
  · rw [NewProjImgList.Bitmap_eq]
    show some (_, BitmapMap.lookupRef self.m_bitmaps (name ++ "")) = _
    rw [hname]

/-- An image list at the resolution `@2x` that holds `gui@2x` and `gui`:
after `SetBitmapResolution()` the name `gui` reaches the bitmap stored under
`gui`. -/
theorem NewProjImgList.default_resolution_witness :
    (NewProjImgList.SetBitmapResolution
        ⟨[("gui@2x", ⟨some 1⟩), ("gui", ⟨some 2⟩)], "@2x", 16, 16⟩ none).Bitmap "gui" =
      some (⟨[("gui@2x", ⟨some 1⟩), ("gui", ⟨some 2⟩)], "", 16, 16⟩,
        wxBitmapRef.second ("gui", ⟨some 2⟩)) :=
  (NewProjImgList.default_resolution
    ⟨[("gui@2x", ⟨some 1⟩), ("gui", ⟨some 2⟩)], "@2x", 16, 16⟩ "gui").2.2.1.trans
    (by decide)

/-! ## The manager interface -/

/-- Claim C6: `IManager` is a pure abstract contract. It has no data member
and no base class, its constructor and its destructor have empty bodies, and
each of its 26 other operations is virtual, pure and without a body, so
`IManager` implements none of them. -/
theorem IManager_decl_pure_abstract :
    IManager_decl.dataMembers = [] ∧
    IManager_decl.bases = [] ∧
    (∀ ctor ∈ IManager_decl.constructors, ctor.body = some []) ∧
    (∃ dtor, IManager_decl.destructor = some dtor ∧ dtor.body = some []) ∧
    IManager_decl.operations.length = 26 ∧
    (∀ op ∈ IManager_decl.operations,
      op.isVirtual = true ∧ op.isPureVirtual = true ∧ op.body = none) ∧
    IManager_decl.implemented = [] := by
  refine ⟨rfl, rfl, by decide, ⟨_, rfl, rfl⟩, rfl, by decide, by decide⟩

/-- Claim C7: `GetToolbarIconSize` returns the size of the icons in use, which
is 16 or 24 and no other integer, in every state of the host, and leaves the
host as it was. -/
theorem HostManager.GetToolbarIconSize_range (self : HostManager) :
    ((self.GetToolbarIconSize).2 = 16 ∨ (self.GetToolbarIconSize).2 = 24) ∧
    (self.GetToolbarIconSize).1 = self := by
  cases self with
  | mk size => cases size <;> decide

/-- Claim C8: the available trees are the two values of `TreeType`, numbered
from zero. `TreeFileView` is 0 and `TreeFileExplorer` is 1, the two differ,
every `TreeType` value is one of them, and `GetSelectedTreeItemInfo` and
`GetTree` each take one parameter, of type `TreeType`. -/
theorem TreeType.values :
    TreeType.TreeFileView.toInt = 0 ∧
    TreeType.TreeFileExplorer.toInt = 1 ∧
    TreeType.TreeFileView ≠ TreeType.TreeFileExplorer ∧
    TreeType.TreeFileView.toInt ≠ TreeType.TreeFileExplorer.toInt ∧
    (∀ t : TreeType, t = TreeType.TreeFileView ∨ t = TreeType.TreeFileExplorer) ∧
    (∀ t : TreeType, t.toInt = 0 ∨ t.toInt = 1) ∧
    (∀ op ∈ IManager_decl.operations,
      op.name = "GetSelectedTreeItemInfo" ∨ op.name = "GetTree" →
        op.params = ["TreeType type"]) := by
  refine ⟨rfl, rfl, by decide, by decide, ?_, ?_, by decide⟩
  · intro t
    cases t
    · exact Or.inl rfl
    · exact Or.inr rfl
  · intro t
    cases t
    · exact Or.inl rfl
    · exact Or.inr rfl

end CodeLite
